import Mathlib

/-!
# Verification of the featherops image API core

Shallow embedding of the generation-orchestration and quota pipeline:

* `src/config/constants.js` — provider catalog, model maps, poll config;
* `src/unnamed/part_000` (routes/v1/images.js and services/imageService.js) —
  route validation, `generateImage`, `pollTaskCompletion`, `uploadToStorage`,
  `imageToBase64`;
* `src/unnamed/part_001` (middleware/rateLimit.js) — `createDynamicRateLimiter`.

External collaborators (axios, the supabase store, the file system) are
injected as explicit data (`PollResponse` streams, `StorageWorld`, a quota
record store), and effects that the claims talk about (upstream submissions,
audit-log inserts, temporary files) are threaded as explicit state.
-/

namespace FeatherOps

/-! ## Constants (src/config/constants.js) -/

structure Provider where
  endpoint : String
  models : List String
deriving DecidableEq, Repr

/-- `PROVIDERS` object of constants.js, as an association list. -/
def PROVIDERS : List (String × Provider) :=
  [ ("dalle", ⟨"/ai-image/dalle", ["dalle"]⟩),
    ("magicstudio", ⟨"/ai-image/magicstudio", ["magicstudio"]⟩),
    ("sdxl", ⟨"/ai-image/sdxl-beta", ["sdxl-beta"]⟩),
    ("flux", ⟨"/ai-image/flux",
      ["flux", "flux-schnell", "flux-realism", "flux-pro",
       "flux-1.1-pro", "flux-1.1-pro-ultra", "flux-1.1-pro-ultra-raw"]⟩) ]

/-- `MODEL_PROVIDERS` map: canonical model name to provider name. -/
def MODEL_PROVIDERS : List (String × String) :=
  [ ("dalle", "dalle"),
    ("magicstudio", "magicstudio"),
    ("sdxl-beta", "sdxl"),
    ("flux", "flux"),
    ("flux-schnell", "flux"),
    ("flux-realism", "flux"),
    ("flux-pro", "flux"),
    ("flux-1.1-pro", "flux"),
    ("flux-1.1-pro-ultra", "flux"),
    ("flux-1.1-pro-ultra-raw", "flux") ]

/-- `FLUX_SIZE_MAP`: size string to flux variant. -/
def FLUX_SIZE_MAP : List (String × String) :=
  [ ("256x256", "flux"),
    ("512x512", "flux-schnell"),
    ("1024x1024", "flux-realism"),
    ("1792x1024", "flux-pro"),
    ("1024x1792", "flux-1.1-pro"),
    ("2048x2048", "flux-1.1-pro-ultra"),
    ("hd", "flux-1.1-pro-ultra-raw") ]

/-- `SUPPORTED_MODELS` list of constants.js. -/
def SUPPORTED_MODELS : List String :=
  [ "dalle", "magicstudio", "sdxl-beta", "flux", "flux-schnell",
    "flux-realism", "flux-pro", "flux-1.1-pro", "flux-1.1-pro-ultra",
    "flux-1.1-pro-ultra-raw" ]

/-- `OPENAI_MODEL_MAP`: OpenAI compatibility alias to canonical model. -/
def OPENAI_MODEL_MAP : List (String × String) :=
  [ ("dall-e-3", "dalle"),
    ("dall-e-2", "magicstudio"),
    ("stable-diffusion-3", "sdxl-beta"),
    ("stable-diffusion-2", "flux-1.1-pro-ultra") ]

/-- `SUPPORTED_SIZES` list of constants.js. -/
def SUPPORTED_SIZES : List String :=
  [ "256x256", "512x512", "1024x1024", "1792x1024", "1024x1792",
    "2048x2048", "hd" ]

/-- `SUPPORTED_FORMATS` list of constants.js. -/
def SUPPORTED_FORMATS : List String := ["url", "b64_json"]

/-- `POLL_CONFIG.maxAttempts` (the interval only spends wall time and is not
modelled). -/
def POLL_maxAttempts : Nat := 60

/-! ## ApiError (src/middleware/errorHandler.js) -/

/-- The `ApiError` class: message, HTTP status, type, param, code. -/
structure ApiError where
  message : String
  statusCode : Nat
  errType : String
  param : Option String
  code : Option String
deriving DecidableEq, Repr

/-! ## pollTaskCompletion (imageService.js lines 554-595)

Each `axios.get(taskUrl)` either resolves with a JSON body (`PollResponse.ok`)
or rejects at the transport level (`PollResponse.transportFail`). The body has
a `status` field and optional `url` / `message` fields; JS truthiness of
`data.url` means present and non-empty. -/

structure PollData where
  status : String
  url : Option String
  message : Option String
deriving DecidableEq, Repr

inductive PollResponse where
  | ok (data : PollData)
  | transportFail
deriving DecidableEq, Repr

/-- JS truthiness of an optional string field: present and non-empty. -/
def strTruthy : Option String → Bool
  | none => false
  | some s => !(s == "")

/-- The `ApiError` thrown when `data.status === 'error'` (lines 568-575). -/
def generationFailedError (msg : Option String) : ApiError :=
  ⟨msg.getD "Image generation failed", 400, "api_error", none,
   some "generation_failed"⟩

/-- The `ApiError` thrown after the loop exhausts (lines 588-594). -/
def generationTimeoutError : ApiError :=
  ⟨"Image generation timed out", 408, "timeout_error", none,
   some "generation_timeout"⟩

/-- Body of one iteration of the `for` loop, i.e. the `try` block
(lines 558-579): `ok (some url)` means `return` with the url; `ok none`
means fall through to the sleep and the next iteration; `error e` means the
body threw (the `status === 'error'` branch; a transport failure is also a
throw, modelled with a generic error). -/
def pollAttemptTry (r : PollResponse) : Except ApiError (Option String) :=
  match r with
  | .transportFail => .error ⟨"Network Error", 500, "api_error", none, none⟩
  | .ok data =>
    if data.status == "done" && strTruthy data.url then
      .ok data.url
    else if data.status == "error" then
      .error (generationFailedError data.message)
    else
      .ok none

/-- One full loop iteration including the `catch` (lines 580-585): any error
thrown inside the `try` — the transport failure AND the explicitly thrown
`generation_failed` ApiError — is caught, logged, and the loop continues. -/
def pollAttempt (r : PollResponse) : Option String :=
  match pollAttemptTry r with
  | .ok res => res
  | .error _ => none

/-- The `for` loop of `pollTaskCompletion`, with the stream of upstream poll
responses indexed by attempt number. Returns the result together with the
number of polling attempts actually performed. -/
def pollLoop (responses : Nat → PollResponse) :
    Nat → Nat → Except ApiError String × Nat
  | _, 0 => (.error generationTimeoutError, 0)
  | attempt, fuel + 1 =>
    match pollAttempt (responses attempt) with
    | some url => (.ok url, 1)
    | none =>
      let rest := pollLoop responses (attempt + 1) fuel
      (rest.1, rest.2 + 1)

/-- `pollTaskCompletion(taskUrl)`: run the loop for `POLL_CONFIG.maxAttempts`
attempts starting at attempt 0. -/
def pollTaskCompletion (responses : Nat → PollResponse) :
    Except ApiError String × Nat :=
  pollLoop responses 0 POLL_maxAttempts

/-! ## Quota ledger (rateLimit.js, createDynamicRateLimiter, lines 179-246)

One `rate_limits` row per credential. `R` is `resetTime` (midnight of the
current day), `now` the current timestamp, `C` the ceiling that reaches the
upsert (`req.apiKey.rateLimit || 100`, hence never 0). The supabase select
resolves with either the row or error/no-row (collapsed to `none`, exactly how
line 200 treats them); any of the three awaited store calls may instead reject,
which lands in the middleware `catch`. -/

structure QuotaRecord where
  requests_count : Nat
  last_reset : Nat
  max_requests : Nat
deriving DecidableEq, Repr

inductive LimiterOutcome where
  | admitted
  | denied
deriving DecidableEq, Repr

/-- The `try` block of the middleware (lines 181-240), with injected rejection
flags for the select / upsert / update store calls. Returns the outcome and
the store row after the call. -/
def limiterTry (R now C : Nat) (selThrows upsertThrows updateThrows : Bool)
    (store : Option QuotaRecord) :
    Except Unit (LimiterOutcome × Option QuotaRecord) :=
  if selThrows then .error () else
  match store with
  | none =>
    -- `error || !data` branch: create/reset the counter and admit
    if upsertThrows then .error ()
    else .ok (.admitted, some ⟨1, now, C⟩)
  | some d =>
    if d.last_reset < R then
      -- stale row: reset branch
      if upsertThrows then .error ()
      else .ok (.admitted, some ⟨1, now, C⟩)
    else if d.max_requests ≤ d.requests_count then
      -- `requests_count >= max_requests`: 429, no store write
      .ok (.denied, some d)
    else
      -- increment and admit
      if updateThrows then .error ()
      else .ok (.admitted, some { d with requests_count := d.requests_count + 1 })

/-- The whole middleware including its `catch` (lines 241-244): any rejection
is logged and `next()` is called, i.e. the request is admitted with the store
left as it was. -/
def dynamicRateLimiter (R now C : Nat)
    (selThrows upsertThrows updateThrows : Bool)
    (store : Option QuotaRecord) : LimiterOutcome × Option QuotaRecord :=
  match limiterTry R now C selThrows upsertThrows updateThrows store with
  | .ok r => r
  | .error _ => (.admitted, store)

/-- One failure-free sequential `checkAndConsume` call. -/
def rateLimitStep (R now C : Nat) (store : Option QuotaRecord) :
    LimiterOutcome × Option QuotaRecord :=
  dynamicRateLimiter R now C false false false store

/-- The store after `k` sequential failure-free calls. -/
def quotaRun (R now C : Nat) : Nat → Option QuotaRecord → Option QuotaRecord
  | 0, s => s
  | k + 1, s => quotaRun R now C k (rateLimitStep R now C s).2

/-- Outcome of the `k`-th (1-indexed) sequential call starting from store
state `s`. -/
def nthCallOutcome (R now C : Nat) (k : Nat) (s : Option QuotaRecord) :
    LimiterOutcome :=
  (rateLimitStep R now C (quotaRun R now C (k - 1) s)).1

/-! ### Concurrent interleavings of the middleware (C9)

The middleware is NOT one atomic store operation: it performs a `select`
(line 193) and later a separate `update`/`upsert` (lines 202/228) computed
from the value it read. We model each in-flight request as a two-phase
process over the shared row and run explicit schedules. -/

inductive ReqPhase where
  | start
  | readDone (v : Option QuotaRecord)
  | finished (o : LimiterOutcome)
deriving DecidableEq, Repr

/-- One atomic store access of one in-flight request (failure-free run):
`start → readDone` is the select; `readDone → finished` is the decision plus
its single write (the upsert writes a fresh row; the update sets
`requests_count` to the READ value + 1 on the current row, exactly the SQL
`update ... eq(key_id)` of lines 228-233). -/
def concStep (R now C : Nat) (store : Option QuotaRecord) :
    ReqPhase → ReqPhase × Option QuotaRecord
  | .start => (.readDone store, store)
  | .readDone v =>
    match v with
    | none => (.finished .admitted, some ⟨1, now, C⟩)
    | some d =>
      if d.last_reset < R then (.finished .admitted, some ⟨1, now, C⟩)
      else if d.max_requests ≤ d.requests_count then (.finished .denied, store)
      else
        (.finished .admitted,
         match store with
         | some cur => some { cur with requests_count := d.requests_count + 1 }
         | none => none)
  | .finished o => (.finished o, store)

structure ConcState where
  store : Option QuotaRecord
  p1 : ReqPhase
  p2 : ReqPhase
deriving DecidableEq, Repr

/-- Run a schedule over two concurrent requests for the same credential;
`false` steps request 1, `true` steps request 2. -/
def runSchedule (R now C : Nat) : List Bool → ConcState → ConcState
  | [], s => s
  | b :: rest, s =>
    if b then
      let (p, st) := concStep R now C s.store s.p2
      runSchedule R now C rest ⟨st, s.p1, p⟩
    else
      let (p, st) := concStep R now C s.store s.p1
      runSchedule R now C rest ⟨st, p, s.p2⟩

/-! ## Artifact materializer (imageService.js lines 605-737)

`uploadToStorage`: download to a temp file, upload the bytes to storage, mint
a signed URL, best-effort audit insert, unlink the temp file, return the
signed URL; the enclosing `catch` logs and returns the original source URL.
`imageToBase64`: download to a temp file, read and base64-encode, unlink,
return; the `catch` rethrows as a 500 `ApiError`.

The injected world says which external step succeeds. The second component of
each result records whether the temp file written during the call still exists
when the function returns (axios rejecting happens before the file is
created). The supabase `images` insert resolves with `{error}` rather than
rejecting (its result is not even inspected, line 666), so it has no failure
flag. -/

structure StorageWorld where
  downloadOk : Bool
  uploadOk : Bool
  signOk : Bool
  signedUrl : String
deriving DecidableEq, Repr

/-- The `ApiError` thrown by `imageToBase64`'s catch (lines 729-735). -/
def imageProcessingError : ApiError :=
  ⟨"Failed to process image", 500, "processing_error", none,
   some "image_processing_failed"⟩

/-- The `try` block of `uploadToStorage` (lines 606-677): result of the body
(`error` = the body threw) paired with whether the temp file exists at that
point. `fs.unlinkSync` runs only on the success path (line 675). -/
def uploadBody (w : StorageWorld) (_sourceUrl : String) :
    Except Unit String × Bool :=
  if !w.downloadOk then (.error (), false)
  else if !w.uploadOk then (.error (), true)
  else if !w.signOk then (.error (), true)
  else (.ok w.signedUrl, false)

/-- `uploadToStorage` with its `catch` (lines 678-683): any failure is logged
and the ORIGINAL source URL is returned; the catch performs no unlink, so the
temp-file flag of the body is final. -/
def uploadToStorage (w : StorageWorld) (sourceUrl : String) : String × Bool :=
  match uploadBody w sourceUrl with
  | (.ok u, t) => (u, t)
  | (.error _, t) => (sourceUrl, t)

structure B64World where
  downloadOk : Bool
  encodeOk : Bool
  base64 : String
deriving DecidableEq, Repr

/-- The `try` block of `imageToBase64` (lines 692-726): unlink again only on
the success path (line 724); a `readFileSync`/encode failure leaves the file. -/
def imageToBase64Body (w : B64World) : Except Unit String × Bool :=
  if !w.downloadOk then (.error (), false)
  else if !w.encodeOk then (.error (), true)
  else (.ok w.base64, false)

/-- `imageToBase64` with its `catch` (lines 727-736): rethrows a 500
`ApiError`; no unlink in the catch. -/
def imageToBase64 (w : B64World) : Except ApiError String × Bool :=
  match imageToBase64Body w with
  | (.ok s, t) => (.ok s, t)
  | (.error _, t) => (.error imageProcessingError, t)

/-! ## generateImage (imageService.js lines 423-547) and the route
(routes/v1/images.js lines 20-92) -/

/-- Body of the provider submit response `{ok, message?, task_url}`. -/
structure SubmitData where
  ok : Bool
  message : Option String
  task_url : String
deriving DecidableEq, Repr

/-- Injected external world of one `generateImage` call. -/
structure GenWorld where
  submitThrows : Bool
  submit : SubmitData
  pollResponses : Nat → PollResponse
  storage : StorageWorld
  b64 : B64World
  created : Nat

inductive ImageEntry where
  | url (u : String)
  | b64_json (b : String)
deriving DecidableEq, Repr

structure OAIResponse where
  creator : String
  created : Nat
  data : List ImageEntry
deriving DecidableEq, Repr

/-- `params` handed to `generateImage` (route lines 75-82): option = may be
`undefined`; destructuring defaults in the service apply only to `none`. -/
structure GenParams where
  prompt : String
  n : Nat
  size : Option String
  model : Option String
  response_format : Option String
  keyId : Option String
deriving DecidableEq, Repr

/-- A `request_logs` insert issued by `generateImage`. -/
structure LogRecord where
  status : String
  model : String
  prompt : String
deriving DecidableEq, Repr

/-- Side effects of one call: number of upstream submit requests, number of
poll loops entered, and the audit-log inserts issued, in order. -/
structure GenEffects where
  submits : Nat
  pollLoops : Nat
  logs : List LogRecord
deriving DecidableEq, Repr

def noEffects : GenEffects := ⟨0, 0, []⟩

def promptRequiredError : ApiError :=
  ⟨"Prompt is required", 400, "invalid_request_error", some "prompt",
   some "param_required"⟩

/-- The `Invalid model` error thrown inside `generateImage` (line 438). -/
def invalidModelError : ApiError :=
  ⟨"Invalid model", 400, "invalid_request_error", some "model",
   some "param_invalid"⟩

/-- JS `x || d` on an optional string. -/
def jsOr (o : Option String) (d : String) : String :=
  match o with
  | none => d
  | some s => if s == "" then d else s

/-- The error-path `request_logs` insert of the catch (lines 519-528):
`model: params.model || 'unknown'`, `prompt: params.prompt || 'unknown'`. -/
def errorLogRecord (p : GenParams) : LogRecord :=
  ⟨"error", jsOr p.model "unknown", if p.prompt == "" then "unknown" else p.prompt⟩

/-- The catch of `generateImage` (lines 516-546): if `params.keyId` is set, an
error `request_logs` record is inserted, then the `ApiError` is rethrown
unchanged (every error reaching it in this model is an `ApiError`, except the
submit transport rejection which is wrapped per lines 539-545). -/
def genCatch (p : GenParams) (e : ApiError) (eff : GenEffects) :
    Except ApiError OAIResponse × GenEffects :=
  match p.keyId with
  | some _ => (.error e, { eff with logs := eff.logs ++ [errorLogRecord p] })
  | none => (.error e, eff)

/-- The canonical model chosen by line 433:
`OPENAI_MODEL_MAP[model] || model`, after the destructuring default
`model = 'dalle'` (applied only when the field is `undefined`). -/
def actualModelOf (p : GenParams) : String :=
  (OPENAI_MODEL_MAP.lookup (p.model.getD "dalle")).getD (p.model.getD "dalle")

/-- `generateImage(params)` (lines 423-547), with effects threaded. -/
def generateImage (w : GenWorld) (p : GenParams) :
    Except ApiError OAIResponse × GenEffects :=
  if p.prompt == "" then genCatch p promptRequiredError noEffects
  else
    match (MODEL_PROVIDERS.lookup (actualModelOf p) : Option String) with
    | none => genCatch p invalidModelError noEffects
    | some providerName =>
      match (PROVIDERS.lookup providerName : Option Provider) with
      | none =>
        -- JS would raise a TypeError reading `.endpoint` of undefined; the
        -- catch wraps it (lines 539-545). Unreachable: every MODEL_PROVIDERS
        -- value is a PROVIDERS key.
        genCatch p ⟨"Cannot read properties of undefined", 500, "api_error",
                    none, some "generation_error"⟩ noEffects
      | some _provider =>
        -- `axios.get(apiUrl)`: the one upstream submission
        if w.submitThrows then
          genCatch p ⟨"Network Error", 500, "api_error", none,
                      some "generation_error"⟩ ⟨1, 0, []⟩
        else if !w.submit.ok then
          genCatch p ⟨w.submit.message.getD "Failed to start image generation",
                      400, "api_error", none, some "generation_failed"⟩ ⟨1, 0, []⟩
        else
          match (pollTaskCompletion w.pollResponses).1 with
          | .error e => genCatch p e ⟨1, 1, []⟩
          | .ok upstreamUrl =>
            -- line 479 computes `imageUrl = uploadToStorage(...)` here, before
            -- the format branch; uploadToStorage never throws and its value is
            -- only read in the url branch, so the pure call is written at its
            -- use site below. The success request_logs insert (lines 482-494)
            -- also precedes the branch and appears in both branches' effects.
            if (p.response_format.getD "url") == "b64_json" then
              match (imageToBase64 w.b64).1 with
              | .error e =>
                genCatch p e ⟨1, 1, [⟨"success", actualModelOf p, p.prompt⟩]⟩
              | .ok b =>
                (.ok ⟨"featherops", w.created, List.replicate p.n (.b64_json b)⟩,
                 ⟨1, 1, [⟨"success", actualModelOf p, p.prompt⟩]⟩)
            else
              (.ok ⟨"featherops", w.created,
                    List.replicate p.n (.url (uploadToStorage w.storage upstreamUrl).1)⟩,
               ⟨1, 1, [⟨"success", actualModelOf p, p.prompt⟩]⟩)

/-! ### Route validation (routes/v1/images.js lines 20-92) -/

/-- `req.body` of POST /generations; option = field absent (`undefined`). -/
structure ReqBody where
  prompt : Option String
  n : Option Int
  size : Option String
  response_format : Option String
  model : Option String
deriving DecidableEq, Repr

def nInvalidError : ApiError :=
  ⟨"n must be between 1 and 10", 400, "invalid_request_error", some "n",
   some "param_invalid"⟩

def sizeInvalidError : ApiError :=
  ⟨"Invalid size. Must be one of: " ++ String.intercalate ", " SUPPORTED_SIZES,
   400, "invalid_request_error", some "size", some "param_invalid"⟩

def formatInvalidError : ApiError :=
  ⟨"Invalid response_format. Must be one of: " ++
     String.intercalate ", " SUPPORTED_FORMATS,
   400, "invalid_request_error", some "response_format", some "param_invalid"⟩

/-- The `Invalid model` error thrown by the route (lines 63-69). -/
def invalidModelRouteError : ApiError :=
  ⟨"Invalid model. Must be one of: " ++ String.intercalate ", " SUPPORTED_MODELS,
   400, "invalid_request_error", some "model", some "param_invalid"⟩

/-- `const numImages = n ? parseInt(n) : 1` (line 30): a falsy `n` (absent
or 0) becomes 1. -/
def routeNumImages (body : ReqBody) : Int :=
  match body.n with
  | none => 1
  | some k => if k == 0 then 1 else k

/-- The validation part of the route handler (lines 22-82): each check in
source order; on success, the `params` object passed to `generateImage`. -/
def routeValidate (body : ReqBody) (keyId : String) :
    Except ApiError GenParams :=
  if !(strTruthy body.prompt) then .error promptRequiredError
  else if routeNumImages body < 1 || 10 < routeNumImages body then
    .error nInvalidError
  else if strTruthy body.size &&
      !(SUPPORTED_SIZES.contains (body.size.getD "")) then
    .error sizeInvalidError
  else if strTruthy body.response_format &&
      !(SUPPORTED_FORMATS.contains (body.response_format.getD "")) then
    .error formatInvalidError
  else if strTruthy body.model &&
      !(SUPPORTED_MODELS.contains (body.model.getD "")) &&
      (OPENAI_MODEL_MAP.lookup (body.model.getD "")).isNone then
    .error invalidModelRouteError
  else
    .ok ⟨body.prompt.getD "", (routeNumImages body).toNat, body.size,
         body.model, body.response_format, some keyId⟩

/-- The route checks that precede the model check (lines 25-56) all pass. -/
def preModelChecksPass (body : ReqBody) : Bool :=
  strTruthy body.prompt &&
  !(routeNumImages body < 1 || 10 < routeNumImages body) &&
  !(strTruthy body.size && !(SUPPORTED_SIZES.contains (body.size.getD ""))) &&
  !(strTruthy body.response_format &&
    !(SUPPORTED_FORMATS.contains (body.response_format.getD "")))

/-- The route handler after auth and rate limiting: validation, then
`generateImage`; a validation error short-circuits before the service runs,
so it produces no effects. -/
def handleGenerations (w : GenWorld) (body : ReqBody) (keyId : String) :
    Except ApiError OAIResponse × GenEffects :=
  match routeValidate body keyId with
  | .error e => (.error e, noEffects)
  | .ok p => generateImage w p

/-! ## Helper lemmas -/

/-- A poll response that does not report `done` with a truthy url. -/
def isDoneResp (r : PollResponse) : Bool :=
  match r with
  | .ok d => d.status == "done" && strTruthy d.url
  | .transportFail => false

/-- A poll response that reports the explicit failure status. -/
def isErrorResp (r : PollResponse) : Bool :=
  match r with
  | .ok d => d.status == "error"
  | .transportFail => false

theorem pollAttempt_eq_none {r : PollResponse} (h : isDoneResp r = false) :
    pollAttempt r = none := by
  cases r with
  | transportFail => rfl
  | ok d =>
    simp only [isDoneResp] at h
    by_cases he : (d.status == "error") = true
    · simp [pollAttempt, pollAttemptTry, h, he]
    · simp [pollAttempt, pollAttemptTry, h, he]

theorem pollLoop_all_pending (responses : Nat → PollResponse) :
    ∀ fuel a, (∀ i, a ≤ i → i < a + fuel → pollAttempt (responses i) = none) →
    pollLoop responses a fuel = (.error generationTimeoutError, fuel) := by
  intro fuel
  induction fuel with
  | zero => intro a _; rfl
  | succ n ih =>
    intro a h
    have ha : pollAttempt (responses a) = none := h a le_rfl (by omega)
    simp only [pollLoop, ha]
    rw [ih (a + 1) (fun i h1 h2 => h i (by omega) (by omega))]

theorem pollLoop_count_le (responses : Nat → PollResponse) :
    ∀ fuel a, (pollLoop responses a fuel).2 ≤ fuel := by
  intro fuel
  induction fuel with
  | zero => intro a; simp [pollLoop]
  | succ n ih =>
    intro a
    simp only [pollLoop]
    cases pollAttempt (responses a) with
    | some url => simp
    | none => simpa using Nat.succ_le_succ (ih (a + 1))

theorem genCatch_fst (p : GenParams) (e : ApiError) (eff : GenEffects) :
    (genCatch p e eff).1 = Except.error e := by
  unfold genCatch; cases p.keyId <;> rfl

theorem genCatch_submits (p : GenParams) (e : ApiError) (eff : GenEffects) :
    (genCatch p e eff).2.submits = eff.submits := by
  unfold genCatch; cases p.keyId <;> rfl

/-! ## Claims -/

/-- Upstream poll responses that report the explicit failure status from the
very first attempt. -/
def errorEveryAttempt : Nat → PollResponse :=
  fun _ => .ok ⟨"error", none, some "upstream generation failed"⟩

/-- C1: the claim states that a poll response with explicit failure status
`error` makes the call surface `UpstreamGenerationFailed` (the thrown
`generation_failed` ApiError) immediately with no further polling attempts.
The code contradicts it: the `throw` for `status === 'error'` sits inside the
same `try` whose `catch` treats every thrown error as a transient polling
failure, so the error is swallowed, polling continues for all 60 attempts,
and the call ends in the `generation_timeout` 408 error instead. This theorem
evaluates the embedded `pollTaskCompletion` on a stream whose first response
already has status `error`: all 60 attempts are performed and the result is
the timeout error, not the generation failure. -/
theorem pollTaskCompletion_swallows_explicit_failure :
    isErrorResp (errorEveryAttempt 0) = true ∧
    pollTaskCompletion errorEveryAttempt =
      (.error generationTimeoutError, POLL_maxAttempts) ∧
    generationTimeoutError.code = some "generation_timeout" ∧
    generationTimeoutError.statusCode = 408 ∧
    generationTimeoutError ≠ generationFailedError (some "upstream generation failed") := by
  refine ⟨rfl, ?_, rfl, rfl, by decide⟩
  have h : ∀ i, (0:Nat) ≤ i → i < 0 + POLL_maxAttempts →
      pollAttempt (errorEveryAttempt i) = none := by
    intro i _ _; rfl
  exact pollLoop_all_pending errorEveryAttempt POLL_maxAttempts 0 h

/-- C8: if no polling attempt observes a `done`-with-url response nor an
explicit `error` status, the loop performs exactly `maxAttempts` attempts and
fails with the `generation_timeout` 408 error; moreover no run of the loop
ever performs more than `maxAttempts` attempts. -/
theorem pollTaskCompletion_timeout_exact (responses : Nat → PollResponse)
    (h : ∀ i, i < POLL_maxAttempts →
      isDoneResp (responses i) = false ∧ isErrorResp (responses i) = false) :
    pollTaskCompletion responses =
      (.error generationTimeoutError, POLL_maxAttempts) ∧
    generationTimeoutError.statusCode = 408 ∧
    (∀ g : Nat → PollResponse, (pollTaskCompletion g).2 ≤ POLL_maxAttempts) := by
  refine ⟨?_, rfl, fun g => pollLoop_count_le g POLL_maxAttempts 0⟩
  exact pollLoop_all_pending responses POLL_maxAttempts 0
    (fun i h1 h2 => pollAttempt_eq_none (h i (by omega)).1)

/-- Witness for C8 at a concrete always-`pending` upstream. -/
theorem pollTaskCompletion_timeout_exact_witness :
    pollTaskCompletion (fun _ => .ok ⟨"pending", none, none⟩) =
      (.error generationTimeoutError, POLL_maxAttempts) :=
  (pollTaskCompletion_timeout_exact (fun _ => .ok ⟨"pending", none, none⟩)
    (by intro i _; exact ⟨rfl, rfl⟩)).1

/-! ### Quota ledger lemmas -/

theorem rateLimitStep_fresh (R now C : Nat) :
    rateLimitStep R now C none = (.admitted, some ⟨1, now, C⟩) := by
  simp [rateLimitStep, dynamicRateLimiter, limiterTry]

theorem rateLimitStep_stale (R now C : Nat) (d : QuotaRecord)
    (h : d.last_reset < R) :
    rateLimitStep R now C (some d) = (.admitted, some ⟨1, now, C⟩) := by
  simp [rateLimitStep, dynamicRateLimiter, limiterTry, h]

theorem rateLimitStep_within (R now C : Nat) (d : QuotaRecord)
    (h : ¬ d.last_reset < R) :
    rateLimitStep R now C (some d) =
      if d.max_requests ≤ d.requests_count then (.denied, some d)
      else (.admitted, some { d with requests_count := d.requests_count + 1 }) := by
  by_cases hq : d.max_requests ≤ d.requests_count
  · simp [rateLimitStep, dynamicRateLimiter, limiterTry, h, hq]
  · simp [rateLimitStep, dynamicRateLimiter, limiterTry, h, hq]

theorem quotaRun_within (R now C : Nat) (hR : R ≤ now) :
    ∀ k m, 1 ≤ m → m ≤ C →
    quotaRun R now C k (some ⟨m, now, C⟩) = some ⟨min (m + k) C, now, C⟩ := by
  intro k
  induction k with
  | zero =>
    intro m h1 hm
    simp only [quotaRun]
    congr 2
    omega
  | succ n ih =>
    intro m h1 hm
    have hnr : ¬ (⟨m, now, C⟩ : QuotaRecord).last_reset < R := by
      show ¬ now < R; omega
    by_cases hfull : C ≤ m
    · have hstep : (rateLimitStep R now C (some ⟨m, now, C⟩)).2 = some ⟨m, now, C⟩ := by
        rw [rateLimitStep_within R now C _ hnr,
            if_pos (show (⟨m, now, C⟩ : QuotaRecord).max_requests ≤
              (⟨m, now, C⟩ : QuotaRecord).requests_count from hfull)]
      simp only [quotaRun, hstep]
      rw [ih m h1 hm]
      congr 2
      omega
    · have hstep : (rateLimitStep R now C (some ⟨m, now, C⟩)).2 = some ⟨m + 1, now, C⟩ := by
        rw [rateLimitStep_within R now C _ hnr,
            if_neg (show ¬ (⟨m, now, C⟩ : QuotaRecord).max_requests ≤
              (⟨m, now, C⟩ : QuotaRecord).requests_count from hfull)]
      simp only [quotaRun, hstep]
      rw [ih (m + 1) (by omega) (by omega)]
      congr 2
      omega

theorem quotaRun_from_none (R now C : Nat) (hR : R ≤ now) (hC : 1 ≤ C)
    (k : Nat) (hk : 1 ≤ k) :
    quotaRun R now C k none = some ⟨min k C, now, C⟩ := by
  obtain ⟨j, rfl⟩ : ∃ j, k = j + 1 := ⟨k - 1, by omega⟩
  simp only [quotaRun, rateLimitStep_fresh]
  rw [quotaRun_within R now C hR j 1 le_rfl hC]
  congr 2
  omega

/-- C2: for a credential with ceiling `C ≥ 1` (the ceiling that reaches the
upsert is `rateLimit || 100`, hence never 0) and a quota-day in which
`resetTime ≤ now`, sequential `checkAndConsume` calls starting from no record
admit exactly the first `C` calls and deny every later one; a denied call
leaves the record unmutated; and the first call with no record, or with a
record whose `last_reset` predates the boundary, reinitializes the record to
`requests_count = 1` and is admitted. -/
theorem quota_ceiling_daily_reset (R now C : Nat) (hR : R ≤ now) (hC : 1 ≤ C) :
    (∀ k, 1 ≤ k → (nthCallOutcome R now C k none = .admitted ↔ k ≤ C)) ∧
    (∀ s, (rateLimitStep R now C s).1 = .denied →
      (rateLimitStep R now C s).2 = s) ∧
    rateLimitStep R now C none = (.admitted, some ⟨1, now, C⟩) ∧
    (∀ d : QuotaRecord, d.last_reset < R →
      rateLimitStep R now C (some d) = (.admitted, some ⟨1, now, C⟩)) := by
  refine ⟨?_, ?_, rateLimitStep_fresh R now C, fun d hd => rateLimitStep_stale R now C d hd⟩
  · intro k hk
    unfold nthCallOutcome
    rcases Nat.eq_or_lt_of_le hk with h1 | h2
    · rw [← h1]
      simp only [Nat.sub_self, quotaRun, rateLimitStep_fresh]
      simp
      omega
    · have hk2 : 1 ≤ k - 1 := by omega
      rw [quotaRun_from_none R now C hR hC (k - 1) hk2]
      have hnr : ¬ (⟨min (k-1) C, now, C⟩ : QuotaRecord).last_reset < R := by
        show ¬ now < R; omega
      rw [rateLimitStep_within R now C _ hnr]
      by_cases hfull : C ≤ k - 1
      · rw [if_pos (show (⟨min (k-1) C, now, C⟩ : QuotaRecord).max_requests ≤
            (⟨min (k-1) C, now, C⟩ : QuotaRecord).requests_count from by
          show C ≤ min (k-1) C; omega)]
        simp
        omega
      · rw [if_neg (show ¬ (⟨min (k-1) C, now, C⟩ : QuotaRecord).max_requests ≤
            (⟨min (k-1) C, now, C⟩ : QuotaRecord).requests_count from by
          show ¬ C ≤ min (k-1) C; omega)]
        simp
        omega
  · intro s h
    match s with
    | none => rw [rateLimitStep_fresh] at h; simp at h
    | some d =>
      by_cases hd : d.last_reset < R
      · rw [rateLimitStep_stale R now C d hd] at h; simp at h
      · rw [rateLimitStep_within R now C d hd] at h ⊢
        by_cases hq : d.max_requests ≤ d.requests_count
        · rw [if_pos hq]
        · rw [if_neg hq] at h; simp at h

/-- Witness for C2 at ceiling 3: calls 1-3 admitted, call 4 denied. -/
theorem quota_ceiling_daily_reset_witness :
    0 ≤ 5 ∧ 1 ≤ 3 ∧
    nthCallOutcome 0 5 3 3 none = .admitted ∧
    ¬ nthCallOutcome 0 5 3 4 none = .admitted := by
  have h := quota_ceiling_daily_reset 0 5 3 (by omega) (by omega)
  refine ⟨by omega, by omega, (h.1 3 (by omega)).2 (by omega), fun hc => ?_⟩
  have := (h.1 4 (by omega)).1 hc
  omega

/-- Number of the two concurrent requests that finished admitted. -/
def admittedCount (s : ConcState) : Nat :=
  (if s.p1 = .finished .admitted then 1 else 0) +
  (if s.p2 = .finished .admitted then 1 else 0)

/-- C9: the claim states the ledger's read of `requests_count` and its
increment behave as one atomic read-modify-write, so interleaved requests can
never be over-admitted past the ceiling. The code performs the select
(line 193) and the upsert/update (lines 202/228) as separate store calls, so
the claim is false: with ceiling 1 and no existing record, two concurrent
requests whose selects both run before either write are BOTH admitted. This
theorem runs that interleaving: after the schedule select1-select2-write1-
write2, both requests are admitted (2 > ceiling 1), and both admissions fall
in the same quota day (the final record's `last_reset` is `now`). -/
theorem limiter_over_admission_race :
    admittedCount (runSchedule 0 7 1 [false, true, false, true]
      ⟨none, .start, .start⟩) = 2 ∧
    (runSchedule 0 7 1 [false, true, false, true]
      ⟨none, .start, .start⟩).store = some ⟨1, 7, 1⟩ ∧
    1 < admittedCount (runSchedule 0 7 1 [false, true, false, true]
      ⟨none, .start, .start⟩) := by
  decide

/-- C10: whenever the body of the rate-limit middleware rejects — the
`select`, `upsert` or `update` store call throws — the `catch` (lines
241-244) logs and calls `next()`: the request is admitted and the store
is left untouched. The middleware fails open. -/
theorem limiter_fails_open (R now C : Nat) (sel ups upd : Bool)
    (store : Option QuotaRecord)
    (h : limiterTry R now C sel ups upd store = Except.error ()) :
    dynamicRateLimiter R now C sel ups upd store = (.admitted, store) := by
  simp [dynamicRateLimiter, h]

/-- Witness for C10: each of the three store calls throwing (the select, the
upsert on the fresh-record path, the update on the increment path) leads to
admission. -/
theorem limiter_fails_open_witness :
    dynamicRateLimiter 0 5 2 true false false none = (.admitted, none) ∧
    dynamicRateLimiter 0 5 2 false true false none = (.admitted, none) ∧
    dynamicRateLimiter 0 5 2 false false true (some ⟨1, 5, 2⟩) =
      (.admitted, some ⟨1, 5, 2⟩) :=
  ⟨limiter_fails_open 0 5 2 true false false none rfl,
   limiter_fails_open 0 5 2 false true false none rfl,
   limiter_fails_open 0 5 2 false false true (some ⟨1, 5, 2⟩) rfl⟩

/-- C4: in url mode, if any re-hosting step fails — the download, the storage
put, or the signed-URL minting — `uploadToStorage` returns the original
upstream source URL unchanged, and on full success it returns the signed URL.
No exception propagates in either case: `uploadToStorage` is a total function
into `String × Bool` because its catch (lines 678-683) converts every thrown
error into the fallback return. -/
theorem uploadToStorage_fallback (w : StorageWorld) (src : String) :
    ((w.downloadOk = false ∨ w.uploadOk = false ∨ w.signOk = false) →
      (uploadToStorage w src).1 = src) ∧
    (w.downloadOk = true → w.uploadOk = true → w.signOk = true →
      (uploadToStorage w src).1 = w.signedUrl) := by
  obtain ⟨d, u, s, url⟩ := w
  cases d <;> cases u <;> cases s <;>
    simp [uploadToStorage, uploadBody]

/-- Witness for C4: a failing storage put falls back to the source URL; a
fully successful run returns the signed URL. -/
theorem uploadToStorage_fallback_witness :
    (uploadToStorage ⟨true, false, true, "https://signed"⟩ "https://orig").1 =
      "https://orig" ∧
    (uploadToStorage ⟨true, true, true, "https://signed"⟩ "https://orig").1 =
      "https://signed" :=
  ⟨(uploadToStorage_fallback ⟨true, false, true, "https://signed"⟩
      "https://orig").1 (Or.inr (Or.inl rfl)),
   (uploadToStorage_fallback ⟨true, true, true, "https://signed"⟩
      "https://orig").2 rfl rfl rfl⟩

/-- C5 counterexample: the claim says the temporary file is removed on every
exit path of `uploadToStorage` and `imageToBase64`. It is not: `fs.unlinkSync`
is executed only on the success path (lines 675 and 724), and the catch blocks
perform no cleanup. In a run where the download succeeded but the storage put
failed, `uploadToStorage` returns with the temp file still on disk; likewise
`imageToBase64` when the read/encode step fails. -/
theorem temp_file_leak_on_failure :
    (uploadToStorage ⟨true, false, true, "https://signed"⟩ "https://orig").2 = true ∧
    (imageToBase64 ⟨true, false, "ZGF0YQ"⟩).2 = true := by
  decide

/-- C5 amended: the temporary file is removed on the success exit path of both
materialization functions, and where the download itself fails no file is ever
created; but on the failure exit paths that run after the file is written —
storage put failure, signed-URL failure, encode failure — the function returns
with the temporary file still present. -/
theorem temp_file_cleanup_success_only (wu : StorageWorld) (wb : B64World)
    (src : String) :
    (wu.downloadOk = true → wu.uploadOk = true → wu.signOk = true →
      (uploadToStorage wu src).2 = false) ∧
    (wu.downloadOk = false → (uploadToStorage wu src).2 = false) ∧
    (wu.downloadOk = true → wu.uploadOk = false ∨ wu.signOk = false →
      (uploadToStorage wu src).2 = true) ∧
    (wb.downloadOk = true → wb.encodeOk = true → (imageToBase64 wb).2 = false) ∧
    (wb.downloadOk = true → wb.encodeOk = false → (imageToBase64 wb).2 = true) := by
  obtain ⟨d, u, s, url⟩ := wu
  obtain ⟨bd, be, b⟩ := wb
  cases d <;> cases u <;> cases s <;> cases bd <;> cases be <;>
    simp [uploadToStorage, uploadBody, imageToBase64, imageToBase64Body]

/-- Witness for the amended C5. -/
theorem temp_file_cleanup_success_only_witness :
    (uploadToStorage ⟨true, true, true, "https://signed"⟩ "https://orig").2 = false ∧
    (uploadToStorage ⟨false, true, true, "https://signed"⟩ "https://orig").2 = false ∧
    (uploadToStorage ⟨true, true, false, "https://signed"⟩ "https://orig").2 = true ∧
    (imageToBase64 ⟨true, true, "ZGF0YQ"⟩).2 = false ∧
    (imageToBase64 ⟨true, false, "ZGF0YQ"⟩).2 = true := by
  have h1 := temp_file_cleanup_success_only ⟨true, true, true, "https://signed"⟩
    ⟨true, true, "ZGF0YQ"⟩ "https://orig"
  have h2 := temp_file_cleanup_success_only ⟨false, true, true, "https://signed"⟩
    ⟨true, false, "ZGF0YQ"⟩ "https://orig"
  have h3 := temp_file_cleanup_success_only ⟨true, true, false, "https://signed"⟩
    ⟨true, false, "ZGF0YQ"⟩ "https://orig"
  exact ⟨h1.1 rfl rfl rfl, h2.2.1 rfl, h3.2.2.1 rfl (Or.inr rfl),
         h1.2.2.2.1 rfl rfl, h2.2.2.2.2 rfl rfl⟩

theorem genCatch_ne_ok (p : GenParams) (e : ApiError) (eff0 eff : GenEffects)
    (resp : OAIResponse) (h : genCatch p e eff0 = (Except.ok resp, eff)) :
    False := by
  have hfst := congrArg Prod.fst h
  rw [genCatch_fst] at hfst
  exact Except.noConfusion hfst

/-- C3: every successful `generateImage` call issues exactly one upstream
submission and enters exactly one poll loop, and its response's `data` array
has exactly `n` entries, all of them the same single artifact (the same url
or the same `b64_json` value) — `Array(n).fill().map(...)` replication of one
artifact, lines 500-515. -/
theorem generateImage_single_submit_n_copies (w : GenWorld) (p : GenParams)
    (resp : OAIResponse) (eff : GenEffects)
    (_hn1 : 1 ≤ p.n) (_hn10 : p.n ≤ 10)
    (h : generateImage w p = (Except.ok resp, eff)) :
    eff.submits = 1 ∧ eff.pollLoops = 1 ∧
    resp.data.length = p.n ∧
    ((∃ u, resp.data = List.replicate p.n (ImageEntry.url u)) ∨
     (∃ b, resp.data = List.replicate p.n (ImageEntry.b64_json b))) := by
  unfold generateImage at h
  repeat' split at h
  all_goals first
    | exact (genCatch_ne_ok _ _ _ _ _ h).elim
    | (simp only [Prod.mk.injEq, Except.ok.injEq] at h
       obtain ⟨hr, he⟩ := h
       subst hr
       subst he
       refine ⟨rfl, rfl, by simp, ?_⟩
       first
         | exact Or.inl ⟨_, rfl⟩
         | exact Or.inr ⟨_, rfl⟩)

/-- Witness for C3 at `n = 3` in url mode with a fully successful world. -/
theorem generateImage_single_submit_n_copies_witness :
    (generateImage
      ⟨false, ⟨true, none, "https://task"⟩,
       (fun _ => .ok ⟨"done", some "https://img", none⟩),
       ⟨true, true, true, "https://signed"⟩, ⟨true, true, "ZGF0YQ"⟩, 0⟩
      ⟨"a cat", 3, none, none, none, some "key-1"⟩).2.submits = 1 ∧
    (generateImage
      ⟨false, ⟨true, none, "https://task"⟩,
       (fun _ => .ok ⟨"done", some "https://img", none⟩),
       ⟨true, true, true, "https://signed"⟩, ⟨true, true, "ZGF0YQ"⟩, 0⟩
      ⟨"a cat", 3, none, none, none, some "key-1"⟩).2.pollLoops = 1 := by
  have h := generateImage_single_submit_n_copies
    ⟨false, ⟨true, none, "https://task"⟩,
     (fun _ => .ok ⟨"done", some "https://img", none⟩),
     ⟨true, true, true, "https://signed"⟩, ⟨true, true, "ZGF0YQ"⟩, 0⟩
    ⟨"a cat", 3, none, none, none, some "key-1"⟩
    ⟨"featherops", 0, List.replicate 3 (.url "https://signed")⟩
    ⟨1, 1, [⟨"success", "dalle", "a cat"⟩]⟩ (by decide) (by decide) (by rfl)
  exact ⟨h.1, h.2.1⟩

/-! ### Model resolution lemmas (C6, C7) -/

theorem routeValidate_invalid_model (body : ReqBody) (keyId m : String)
    (hm : body.model = some m) (hne : (m == "") = false)
    (hsup : SUPPORTED_MODELS.contains m = false)
    (halias : OPENAI_MODEL_MAP.lookup m = none)
    (hpre : preModelChecksPass body = true) :
    routeValidate body keyId = .error invalidModelRouteError := by
  unfold preModelChecksPass at hpre
  rw [Bool.and_eq_true, Bool.and_eq_true, Bool.and_eq_true] at hpre
  obtain ⟨⟨⟨h1, h2⟩, h3⟩, h4⟩ := hpre
  rw [Bool.not_eq_true'] at h2 h3 h4
  unfold routeValidate
  rw [if_neg (by rw [h1]; decide), if_neg (by rw [h2]; decide),
      if_neg (by rw [h3]; decide), if_neg (by rw [h4]; decide),
      if_pos (by
        have hsup' : m ∉ SUPPORTED_MODELS := by simpa using hsup
        rw [hm]; simp [strTruthy, hne, hsup', halias])]

theorem routeValidate_pass_empty_model (body : ReqBody) (keyId : String)
    (hm : body.model = some "")
    (hpre : preModelChecksPass body = true) :
    routeValidate body keyId =
      .ok ⟨body.prompt.getD "", (routeNumImages body).toNat, body.size,
           some "", body.response_format, some keyId⟩ := by
  unfold preModelChecksPass at hpre
  rw [Bool.and_eq_true, Bool.and_eq_true, Bool.and_eq_true] at hpre
  obtain ⟨⟨⟨h1, h2⟩, h3⟩, h4⟩ := hpre
  rw [Bool.not_eq_true'] at h2 h3 h4
  unfold routeValidate
  rw [if_neg (by rw [h1]; decide), if_neg (by rw [h2]; decide),
      if_neg (by rw [h3]; decide), if_neg (by rw [h4]; decide),
      if_neg (by rw [hm]; simp [strTruthy]), hm]

/-- `generateImage` when the canonical model resolves to no provider: the
`Invalid model` ApiError is thrown at line 438, before the upstream
submission at line 460. -/
theorem generateImage_invalid_model (w : GenWorld) (p : GenParams)
    (hp : (p.prompt == "") = false)
    (hm : MODEL_PROVIDERS.lookup (actualModelOf p) = none) :
    generateImage w p = genCatch p invalidModelError noEffects := by
  unfold generateImage
  rw [if_neg (by simp [hp]), hm]

theorem strTruthy_getD_ne {o : Option String} (h : strTruthy o = true) :
    ((o.getD "" == "") = false) := by
  cases o with
  | none => simp [strTruthy] at h
  | some s => simpa [strTruthy] using h

/-- C6: a request whose model name is neither a canonical catalog model nor a
compatibility alias fails with the `Invalid model` 400 error carrying
param `model`, with zero upstream submissions; and every alias of
`OPENAI_MODEL_MAP` maps to a canonical model that routes to an existing
provider of the catalog. -/
theorem invalid_model_resolution (w : GenWorld) (body : ReqBody)
    (keyId m : String)
    (hm : body.model = some m)
    (hsup : SUPPORTED_MODELS.contains m = false)
    (halias : OPENAI_MODEL_MAP.lookup m = none)
    (hpre : preModelChecksPass body = true) :
    (∃ e : ApiError, (handleGenerations w body keyId).1 = .error e ∧
       e.statusCode = 400 ∧ e.param = some "model") ∧
    (handleGenerations w body keyId).2.submits = 0 ∧
    (∀ pr ∈ OPENAI_MODEL_MAP,
       (MODEL_PROVIDERS.lookup pr.2).isSome = true ∧
       (PROVIDERS.lookup ((MODEL_PROVIDERS.lookup pr.2).getD "")).isSome = true ∧
       SUPPORTED_MODELS.contains pr.2 = true) := by
  refine ⟨?_, ?_, by decide⟩ <;>
  · by_cases hne : (m == "") = true
    · have hm0 : body.model = some "" := by
        rw [hm]; congr 1; exact eq_of_beq hne
      have hroute := routeValidate_pass_empty_model body keyId hm0 hpre
      have h1 : strTruthy body.prompt = true := by
        unfold preModelChecksPass at hpre
        rw [Bool.and_eq_true, Bool.and_eq_true, Bool.and_eq_true] at hpre
        exact hpre.1.1.1
      have hsvc := generateImage_invalid_model w
        ⟨body.prompt.getD "", (routeNumImages body).toNat, body.size,
         some "", body.response_format, some keyId⟩
        (strTruthy_getD_ne h1) (by rfl)
      unfold handleGenerations
      rw [hroute]
      dsimp only
      rw [hsvc]
      first
        | exact ⟨invalidModelError, by rw [genCatch_fst], rfl, rfl⟩
        | (rw [genCatch_submits]; rfl)
    · have hne' : (m == "") = false := by
        cases hb : (m == "") with
        | true => exact absurd hb hne
        | false => rfl
      have hroute := routeValidate_invalid_model body keyId m hm hne' hsup
        halias hpre
      unfold handleGenerations
      rw [hroute]
      dsimp only
      first
        | exact ⟨invalidModelRouteError, rfl, rfl, rfl⟩
        | rfl

/-- Witness for C6 with the unsupported model name `gpt-image-1`. -/
theorem invalid_model_resolution_witness :
    (handleGenerations
      ⟨false, ⟨true, none, "https://task"⟩,
       (fun _ => .ok ⟨"done", some "https://img", none⟩),
       ⟨true, true, true, "https://signed"⟩, ⟨true, true, "ZGF0YQ"⟩, 0⟩
      ⟨some "hi", none, none, none, some "gpt-image-1"⟩ "key-1").2.submits = 0 :=
  (invalid_model_resolution
    ⟨false, ⟨true, none, "https://task"⟩,
     (fun _ => .ok ⟨"done", some "https://img", none⟩),
     ⟨true, true, true, "https://signed"⟩, ⟨true, true, "ZGF0YQ"⟩, 0⟩
    ⟨some "hi", none, none, none, some "gpt-image-1"⟩ "key-1" "gpt-image-1"
    rfl rfl rfl rfl).2.1

/-- C7 counterexample: the claim says a request failing validation or model
resolution triggers no side effect — in particular no audit/log record. But
a request with `model: ""` slips past the route's model check (an empty
string is falsy, line 60), reaches `generateImage`, fails resolution there
with `Invalid model`, and the service catch (lines 519-528) INSERTS an error
`request_logs` record before rethrowing. Evaluated at that concrete request:
the pipeline fails with the 400 `Invalid model` error, makes no upstream
call, yet writes one audit record. -/
theorem validation_failure_still_logs :
    ((handleGenerations
        ⟨false, ⟨true, none, "https://task"⟩,
         (fun _ => .ok ⟨"done", some "https://img", none⟩),
         ⟨true, true, true, "https://signed"⟩, ⟨true, true, "ZGF0YQ"⟩, 0⟩
        ⟨some "hi", none, none, none, some ""⟩ "key-1").1 =
      .error invalidModelError) ∧
    invalidModelError.statusCode = 400 ∧
    invalidModelError.param = some "model" ∧
    (handleGenerations
        ⟨false, ⟨true, none, "https://task"⟩,
         (fun _ => .ok ⟨"done", some "https://img", none⟩),
         ⟨true, true, true, "https://signed"⟩, ⟨true, true, "ZGF0YQ"⟩, 0⟩
        ⟨some "hi", none, none, none, some ""⟩ "key-1").2.submits = 0 ∧
    (handleGenerations
        ⟨false, ⟨true, none, "https://task"⟩,
         (fun _ => .ok ⟨"done", some "https://img", none⟩),
         ⟨true, true, true, "https://signed"⟩, ⟨true, true, "ZGF0YQ"⟩, 0⟩
        ⟨some "hi", none, none, none, some ""⟩ "key-1").2.logs =
      [⟨"error", "unknown", "hi"⟩] :=
  ⟨rfl, rfl, rfl, rfl, rfl⟩

/-- C7 amended: requests rejected by the route-level validation (missing
prompt, invalid n/size/format, unsupported non-empty model name) are surfaced
immediately with no side effect — no upstream call and no audit record; but an
`InvalidModel` raised inside `generateImage` (reachable through the route with
an empty-string model name, or by calling the service directly), while still
making no upstream call, writes exactly one error audit record before the
error is surfaced. -/
theorem validation_error_side_effects :
    (∀ (w : GenWorld) (body : ReqBody) (keyId : String) (e : ApiError),
       routeValidate body keyId = .error e →
       handleGenerations w body keyId = (.error e, noEffects) ∧
       noEffects.submits = 0 ∧ noEffects.logs = []) ∧
    (∀ (w : GenWorld) (p : GenParams) (k : String),
       (p.prompt == "") = false →
       MODEL_PROVIDERS.lookup (actualModelOf p) = none →
       p.keyId = some k →
       (generateImage w p).1 = .error invalidModelError ∧
       (generateImage w p).2.submits = 0 ∧
       (generateImage w p).2.logs = [errorLogRecord p]) := by
  constructor
  · intro w body keyId e h
    refine ⟨?_, rfl, rfl⟩
    unfold handleGenerations
    rw [h]
  · intro w p k hp hm hk
    rw [generateImage_invalid_model w p hp hm]
    unfold genCatch
    rw [hk]
    exact ⟨rfl, rfl, rfl⟩

/-- Witness for the amended C7: a missing prompt is rejected at the route with
no effects; a direct service call with an unknown model writes one error
record and makes no submission. -/
theorem validation_error_side_effects_witness :
    (handleGenerations
        ⟨false, ⟨true, none, "https://task"⟩,
         (fun _ => .ok ⟨"done", some "https://img", none⟩),
         ⟨true, true, true, "https://signed"⟩, ⟨true, true, "ZGF0YQ"⟩, 0⟩
        ⟨none, none, none, none, none⟩ "key-1" =
      (.error promptRequiredError, noEffects)) ∧
    ((generateImage
        ⟨false, ⟨true, none, "https://task"⟩,
         (fun _ => .ok ⟨"done", some "https://img", none⟩),
         ⟨true, true, true, "https://signed"⟩, ⟨true, true, "ZGF0YQ"⟩, 0⟩
        ⟨"hi", 1, none, some "no-such-model", none, some "key-1"⟩).2.logs =
      [⟨"error", "no-such-model", "hi"⟩]) :=
  ⟨(validation_error_side_effects.1 _ ⟨none, none, none, none, none⟩ "key-1"
      promptRequiredError rfl).1,
   (validation_error_side_effects.2 _
      ⟨"hi", 1, none, some "no-such-model", none, some "key-1"⟩ "key-1"
      rfl rfl rfl).2.2⟩

end FeatherOps
